import Mathlib

/-!
# Verification of the triangulated rent estimator

Shallow embedding of `_backend/rent_estimator_v2.py` (and the rounding step of
`_backend/ml_rent_estimator/predict.py`) in Lean.

Modelling conventions:
* Python floats are modelled as exact rationals (`ℚ`); Python `int` as `ℤ`;
  list indices and counts as `ℕ`.
* Python's `round` (round-half-to-even) is modelled by `rne` below.
* `None`-able Python values are `Option`s; Python truthiness of an
  `Optional[float]` (`if x:`) is `x ≠ None ∧ x ≠ 0` and is spelled out at
  each use site.
* The database (`market_benchmarks` and `rental_listings` tables, plus the
  SQL `NOW()` clock) is a passed-in read-only value; a failed
  `get_db_connection()` is the `none` connection.
* The great-circle helper `haversine_distance` uses transcendental
  trigonometry, so the distance computation is abstracted into an explicit
  function argument `distFn`; every property proved here holds for an
  arbitrary `distFn`, hence in particular for the haversine distance.
* The optional ML model (`HAS_ML_MODEL` / `get_ml_prediction`) is an
  optional oracle argument `mlFn`.
* Python's stable `list.sort` is modelled by the stable insertion sort
  `sortBy` below.
-/

/-! ## Python primitives -/

/-- Python `str.upper()` (ASCII case mapping, character by character). -/
def pyUpper (s : String) : String := ⟨s.data.map Char.toUpper⟩

/-- Python `str.strip()`: drop whitespace from both ends. -/
def pyStrip (s : String) : String :=
  ⟨((s.data.dropWhile Char.isWhitespace).reverse.dropWhile Char.isWhitespace).reverse⟩

/-- Python `s.split('.')[0]`: the characters before the first `'.'`
(the whole string when there is no dot). -/
def beforeDot (s : String) : String := ⟨s.data.takeWhile (· ≠ '.')⟩

/-- Python's substring test `needle in hay` for strings, on char lists. -/
def hasSub (n : List Char) : List Char → Bool
  | [] => n.isEmpty
  | c :: t => n.isPrefixOf (c :: t) || hasSub n t

/-- Python `int(x)` on a float: truncation toward zero. -/
def pyTrunc (q : ℚ) : ℤ := if 0 ≤ q then ⌊q⌋ else -⌊-q⌋

/-- Python `round(x)`: round half to even (banker's rounding).  This models
the ideal decimal behaviour; binary floating point can differ from it on
values that are not exactly representable, which no claim here depends on. -/
def rne (q : ℚ) : ℤ :=
  if q - (⌊q⌋ : ℚ) < 1/2 then ⌊q⌋
  else if 1/2 < q - (⌊q⌋ : ℚ) then ⌊q⌋ + 1
  else if ⌊q⌋ % 2 = 0 then ⌊q⌋ else ⌊q⌋ + 1

/-- Python `round(x, 2)`. -/
def round2 (q : ℚ) : ℚ := (rne (q * 100) : ℚ) / 100

/-- Python `round(x, 1)`. -/
def round1 (q : ℚ) : ℚ := (rne (q * 10) : ℚ) / 10

theorem le_rne (q : ℚ) : q - 1/2 ≤ (rne q : ℚ) := by
  unfold rne
  have hfl := Int.floor_le q
  have hlt := Int.lt_floor_add_one q
  split
  · linarith
  · split
    · push_cast; linarith
    · split <;> · push_cast; linarith

theorem rne_le (q : ℚ) : (rne q : ℚ) ≤ q + 1/2 := by
  unfold rne
  have hfl := Int.floor_le q
  have hlt := Int.lt_floor_add_one q
  split
  · linarith
  · next h =>
    push_neg at h
    split
    · next h2 => push_cast; linarith
    · next h2 =>
      push_neg at h2
      have : q - (⌊q⌋ : ℚ) = 1/2 := le_antisymm h2 h
      split <;> · push_cast; linarith

theorem abs_rne_sub (q : ℚ) : |(rne q : ℚ) - q| ≤ 1/2 := by
  rw [abs_le]
  constructor
  · have := le_rne q; linarith
  · have := rne_le q; linarith

theorem rne_ge_floor (q : ℚ) : ⌊q⌋ ≤ rne q := by
  unfold rne
  split
  · omega
  · split
    · omega
    · split <;> omega

theorem rne_le_floor_add_one (q : ℚ) : rne q ≤ ⌊q⌋ + 1 := by
  unfold rne
  split
  · omega
  · split
    · omega
    · split <;> omega

theorem rne_mono {a b : ℚ} (h : a ≤ b) : rne a ≤ rne b := by
  rcases lt_or_eq_of_le (Int.floor_mono h) with hf | hf
  · calc rne a ≤ ⌊a⌋ + 1 := rne_le_floor_add_one a
      _ ≤ ⌊b⌋ := by omega
      _ ≤ rne b := rne_ge_floor b
  · -- same floor: a violation forces `rne a = ⌊a⌋ + 1` and `rne b = ⌊b⌋`,
    -- which the fractional parts rule out
    by_contra hlt
    push_neg at hlt
    have ha_ge := rne_ge_floor a
    have ha_le := rne_le_floor_add_one a
    have hb_ge := rne_ge_floor b
    have hb_le := rne_le_floor_add_one b
    have h1 : rne b = ⌊b⌋ := by omega
    have h2 : rne a = ⌊a⌋ + 1 := by omega
    have hfc : ((⌊a⌋ : ℤ) : ℚ) = ((⌊b⌋ : ℤ) : ℚ) := by exact_mod_cast hf
    unfold rne at h1 h2
    split at h1
    · next hb1 =>
      split at h2
      · next ha1 => omega
      · next ha1 =>
        push_neg at ha1
        -- `1/2 ≤ a - ⌊a⌋` but `b - ⌊b⌋ < 1/2`, contradicting `a ≤ b`
        linarith
    · next hb1 =>
      push_neg at hb1
      split at h1
      · next hb2 => omega
      · next hb2 =>
        push_neg at hb2
        have hbhalf : b - (⌊b⌋ : ℚ) = 1/2 := le_antisymm hb2 hb1
        split at h2
        · next ha1 => omega
        · next ha1 =>
          push_neg at ha1
          split at h2
          · next ha2 => linarith
          · next ha2 =>
            push_neg at ha2
            -- both fractional parts are exactly 1/2, so the parities clash
            split at h1
            · next hbe =>
              split at h2
              · next hae => omega
              · next hae => omega
            · next hbe => omega

theorem round2_mono {a b : ℚ} (h : a ≤ b) : round2 a ≤ round2 b := by
  unfold round2
  have : rne (a * 100) ≤ rne (b * 100) := rne_mono (by linarith)
  have hc : ((rne (a * 100) : ℤ) : ℚ) ≤ ((rne (b * 100) : ℤ) : ℚ) := by exact_mod_cast this
  linarith

/-! ## Stable sorting (Python `list.sort`)

`sortBy r` is a stable insertion sort: an element `x` is placed before `y`
exactly when `r x y` holds, and elements that compare equal keep their
original relative order provided `r` is reflexive on them (as is the case
for the `≥`-by-score and `≤` orderings used below, matching Python's stable
Timsort). -/

def insertSorted (r : α → α → Bool) (x : α) : List α → List α
  | [] => [x]
  | y :: ys => if r x y then x :: y :: ys else y :: insertSorted r x ys

def sortBy (r : α → α → Bool) : List α → List α
  | [] => []
  | x :: xs => insertSorted r x (sortBy r xs)

theorem mem_insertSorted {r : α → α → Bool} {x a : α} :
    ∀ {l : List α}, a ∈ insertSorted r x l ↔ a = x ∨ a ∈ l := by
  intro l
  induction l with
  | nil => simp [insertSorted]
  | cons y ys ih =>
    simp only [insertSorted]
    split
    · simp
    · simp only [List.mem_cons, ih]
      tauto

theorem mem_sortBy {r : α → α → Bool} {a : α} :
    ∀ {l : List α}, a ∈ sortBy r l ↔ a ∈ l := by
  intro l
  induction l with
  | nil => simp [sortBy]
  | cons x xs ih => simp [sortBy, mem_insertSorted, ih]

theorem length_insertSorted {r : α → α → Bool} {x : α} :
    ∀ (l : List α), (insertSorted r x l).length = l.length + 1 := by
  intro l
  induction l with
  | nil => rfl
  | cons y ys ih =>
    simp only [insertSorted]
    split
    · simp
    · simp [ih]

theorem length_sortBy {r : α → α → Bool} :
    ∀ (l : List α), (sortBy r l).length = l.length := by
  intro l
  induction l with
  | nil => rfl
  | cons x xs ih => simp [sortBy, length_insertSorted, ih]

/-! ## Property type classification (`rent_estimator_v2.py` lines 58-137) -/

/-- The fixed set `NON_RENTABLE_TYPES` (lines 59-62). -/
def NON_RENTABLE_TYPES : List String :=
  ["LAND", "LOT", "LOTS", "VACANT", "VACANT_LAND", "LOTS/LAND",
   "FARM", "MOBILE_LAND", "OTHER", "TIMBERLAND", "AGRICULTURAL"]

/-- Model of `is_non_rentable` (lines 122-137).  `if not property_type` is Python
truthiness: `None` and the empty string are both falsy. -/
def is_non_rentable (property_type : Option String) : Bool :=
  match property_type with
  | none => false
  | some s =>
    if s = "" then false
    else
      let pt_upper := pyStrip (pyUpper s)
      if NON_RENTABLE_TYPES.contains pt_upper then true
      else if ["LAND", "LOT", "VACANT"].any (fun x => hasSub x.data pt_upper.data) then true
      else false

/-! ## Database model

The two tables the estimator reads, plus the SQL `NOW()` clock.  A failed
`get_db_connection()` is modelled as the `none` connection. -/

/-- One row of the `rental_listings` table, with the columns selected by
`get_scraped_comps` (lines 196-208).  The query requires non-null
coordinates, which the store guarantees (spec section 6), so `latitude` and
`longitude` are plain fields here. -/
structure ListingRow where
  address : String
  price : ℚ
  bedrooms : ℤ
  bathrooms : Option ℚ
  sqft : Option ℤ
  latitude : ℚ
  longitude : ℚ
  created_at : ℤ
deriving DecidableEq

/-- The read-only database state: `market_benchmarks` maps a zip-code string
to its `safmr_data` JSON object (a mapping from `"<n>br"` keys to rents),
`rental_listings` is the comparables table, and `now` is the SQL `NOW()`
timestamp used by the recency filter. -/
structure DB where
  market_benchmarks : List (String × List (String × ℚ))
  rental_listings : List ListingRow
  now : ℤ
deriving DecidableEq

/-! ## Benchmark source (`get_hud_safmr`, lines 140-170) -/

/-- The `zip_code` argument of `get_hud_safmr` is dynamically typed: the code
distinguishes a float input (`isinstance(zip_code, float)`) from everything
else, which is passed through `str()`.  Non-float inputs are therefore
represented by the string `str(zip_code)` yields. -/
inductive ZipInput where
  | float (q : ℚ)
  | str (s : String)
deriving DecidableEq

/-- The zip-code cleaning of lines 150-153:
`str(int(zip_code))` for a float, `str(zip_code).split('.')[0].strip()`
otherwise. -/
def cleanZip : ZipInput → String
  | .float q => toString (pyTrunc q)
  | .str s => pyStrip (beforeDot s)

/-- Model of `get_hud_safmr` (lines 140-170).  A missing connection or a missing
table entry returns `none`; `if row and row['safmr_data']` makes an empty
`safmr_data` object falsy; the lookup key is `f"{int(bedrooms)}br"`. -/
def get_hud_safmr (conn : Option DB) (zip_code : ZipInput) (bedrooms : ℤ) : Option ℚ :=
  match conn with
  | none => none
  | some db =>
    match db.market_benchmarks.lookup (cleanZip zip_code) with
    | none => none
    | some safmr_data =>
      if safmr_data.isEmpty then none
      else safmr_data.lookup (toString bedrooms ++ "br")

/-! ## Comparables matcher (`get_scraped_comps`, lines 173-257) -/

/-- The comp summary dict built at lines 223-231. -/
structure Comp where
  address : String
  price : ℚ
  beds : ℤ
  baths : Option ℚ
  sqft : Option ℤ
  distance : ℚ
  score : ℚ
deriving DecidableEq

/-- The SQL `WHERE` clause of lines 200-208: positive price below 10000,
bedrooms in `[max(0, bedrooms-1), bedrooms+1]`, listed within
`lookback_days` of `NOW()`.  (The non-null coordinate conditions hold by
construction of `ListingRow`.) -/
def sql_candidate_filter (bedrooms lookback_days now : ℤ) (c : ListingRow) : Bool :=
  decide (0 < c.price) && decide (c.price < 10000) &&
  decide (max 0 (bedrooms - 1) ≤ c.bedrooms) && decide (c.bedrooms ≤ bedrooms + 1) &&
  decide (now - lookback_days < c.created_at)

/-- The loop body of lines 213-237 for one candidate row: discard when the
distance exceeds the radius, build the comp summary with its similarity
score, then apply the scam filter (`if hud_rent and c['price'] <
hud_rent * 0.7: continue`). -/
def admit_candidate (distFn : ℚ → ℚ → ℚ → ℚ → ℚ) (lat lon : ℚ) (bedrooms : ℤ)
    (radius_miles : ℚ) (hud_rent : Option ℚ) (c : ListingRow) : Option Comp :=
  let dist := distFn lat lon c.latitude c.longitude
  if dist ≤ radius_miles then
    let score := 1 * (1 - dist / radius_miles)
      + (if c.bedrooms = bedrooms then (1/4 : ℚ) else 3/20)
    let comp : Comp :=
      { address := c.address, price := c.price, beds := c.bedrooms,
        baths := c.bathrooms, sqft := c.sqft,
        distance := round2 dist, score := round2 score }
    match hud_rent with
    | some h => if h ≠ 0 ∧ c.price < h * (7/10) then none else some comp
    | none => some comp
  else none

/-- Model of `get_scraped_comps` (lines 173-257): returns
`(median_rent, list of comps, count)`; `(none, [], 0)` when the store is
unavailable (or, in the source, when the query raises).  The kept comps are
sorted by score descending (stably, as Python's `list.sort`), truncated to
`max_comps`; the representative rent is `prices[len(prices) // 2]` of the
ascending-sorted price list. -/
def get_scraped_comps (conn : Option DB) (distFn : ℚ → ℚ → ℚ → ℚ → ℚ)
    (lat lon : ℚ) (bedrooms : ℤ) (radius_miles : ℚ) (max_comps : ℕ)
    (lookback_days : ℤ) (hud_rent : Option ℚ) :
    Option ℚ × List Comp × ℕ :=
  match conn with
  | none => (none, [], 0)
  | some db =>
    let candidates := db.rental_listings.filter
      (sql_candidate_filter bedrooms lookback_days db.now)
    let comps := candidates.filterMap
      (admit_candidate distFn lat lon bedrooms radius_miles hud_rent)
    let sorted := sortBy (fun a b => decide (b.score ≤ a.score)) comps
    let top_comps := sorted.take max_comps
    if top_comps.isEmpty then (none, [], 0)
    else
      let prices := sortBy (fun a b => decide (a ≤ b)) (top_comps.map (·.price))
      (prices.get? (prices.length / 2), top_comps, top_comps.length)

/-! ## Variance (`calculate_variance`, lines 273-283) -/

/-- Model of `calculate_variance`: 0 for fewer than two values or a zero mean,
otherwise `max(|v - mean|) / mean * 100`.  The fold seed 0 is harmless:
every `|v - mean|` is nonnegative and the list is nonempty there. -/
def calculate_variance (values : List ℚ) : ℚ :=
  if values.length < 2 then 0
  else
    let mean := values.sum / (values.length : ℚ)
    if mean = 0 then 0
    else
      let max_diff := (values.map (fun v => |v - mean|)).foldr max 0
      max_diff / mean * 100

/-! ## Triangulator (`estimate_rent_v2`, lines 286-423)

The source builds two dicts `weights` and `sources` in lockstep (lines
344-361), always inserting into both under the same condition and in the
fixed order hud, comps, ml.  They are modelled as a single list of
`SourceRow`s carrying the tag, the (base, later normalized) weight and the
source value, in that insertion order. -/

structure SourceRow where
  tag : String
  weight : ℚ
  value : ℚ
deriving DecidableEq

/-- Lines 344-361.  Python truthiness of the `Optional[float]`s is explicit:
`if hud_rent and hud_rent > 0`, `if comps_median and comp_count >= 3`,
`elif comps_median and comp_count >= 1`, `if ml_prediction and
ml_prediction > 0`. -/
def source_rows (hud_rent comps_median : Option ℚ) (comp_count : ℕ)
    (ml_prediction : Option ℚ) : List SourceRow :=
  (match hud_rent with
   | some h => if h ≠ 0 ∧ 0 < h then [⟨"hud", 3/10, h⟩] else []
   | none => []) ++
  (match comps_median with
   | some m =>
     if m ≠ 0 ∧ 3 ≤ comp_count then [⟨"comps", 1/2, m⟩]
     else if m ≠ 0 ∧ 1 ≤ comp_count then [⟨"comps", 3/10, m⟩]
     else []
   | none => []) ++
  (match ml_prediction with
   | some p => if p ≠ 0 ∧ 0 < p then [⟨"ml", 1/5, p⟩] else []
   | none => [])

/-- Lines 363-368: if the present weights sum to something positive other
than 1.0, divide each by the sum. -/
def normalize_weights (rows : List SourceRow) : List SourceRow :=
  if 0 < (rows.map (·.weight)).sum ∧ (rows.map (·.weight)).sum ≠ 1 then
    rows.map (fun r => { r with weight := r.weight / (rows.map (·.weight)).sum })
  else rows

/-- Lines 385-392: base confidence contributions per present source. -/
def confidence_from (rows : List SourceRow) (comp_count : ℕ) : ℚ :=
  (if rows.any (fun r => r.tag = "hud") then 1/4 else 0)
  + (if rows.any (fun r => r.tag = "comps") then min (1/2) ((comp_count : ℚ) / 5 * (1/2)) else 0)
  + (if rows.any (fun r => r.tag = "ml") then 3/20 else 0)

/-- Lines 401-409: the method label, from the present tags in the fixed
order hud, comps, ml. -/
def method_name (rows : List SourceRow) : String :=
  let parts :=
    (if rows.any (fun r => r.tag = "hud") then ["hud"] else [])
    ++ (if rows.any (fun r => r.tag = "comps") then ["comps"] else [])
    ++ (if rows.any (fun r => r.tag = "ml") then ["ml"] else [])
  if 1 < parts.length then "triangulated_" ++ String.intercalate "_" parts
  else match parts with
    | [p] => p
    | _ => "unknown"

/-- The `RentEstimate` dataclass (lines 65-100) with its field defaults;
note `comps` defaults to `None`, not to the empty list. -/
structure RentEstimate where
  estimated_rent : ℚ
  confidence_score : ℚ
  method : String
  hud_fmr : Option ℚ := none
  comps_median : Option ℚ := none
  ml_prediction : Option ℚ := none
  comp_count : ℕ := 0
  comps : Option (List Comp) := none
  property_type : Option String := none
  reason : Option String := none
  variance_pct : Option ℚ := none
  weights_used : Option (List (String × ℚ)) := none
deriving DecidableEq

/-- The `property_data` dict assembled at lines 333-341. -/
structure PropertyData where
  bedrooms : ℤ
  bathrooms : Option ℚ
  sqft : Option ℤ
  year_built : Option ℤ
  latitude : ℚ
  longitude : ℚ
  property_type : Option String
deriving DecidableEq

/-- Model of `get_ml_prediction` (lines 260-270): absent model (`HAS_ML_MODEL`
false, or a prediction error) yields `none`. -/
def get_ml_prediction (mlFn : Option (PropertyData → Option ℚ → Option ℚ))
    (property_data : PropertyData) (hud_rent : Option ℚ) : Option ℚ :=
  match mlFn with
  | none => none
  | some f => f property_data hud_rent

/-- Lines 318-321: the benchmark lookup with its truthiness guard
`if zip_code and bedrooms` (a `None` or empty zip string, or
`bedrooms == 0`, skips the lookup entirely). -/
def estimate_hud_rent (conn : Option DB) (zip_code : Option String)
    (bedrooms : ℤ) : Option ℚ :=
  match zip_code with
  | some z =>
    if z ≠ "" ∧ bedrooms ≠ 0 then get_hud_safmr conn (.str z) bedrooms else none
  | none => none

/-- Model of `estimate_rent_v2` (lines 286-423).  `conn`, `distFn` and `mlFn` are the
environment (database, distance function, optional ML model); the remaining
arguments mirror the Python signature.  Note line 325's `bedrooms or 3`
default for the comp search.  The `weights` normalization (363-368) runs
before the `if not sources` check (371); since normalization does not
change emptiness, the emptiness check here is on the normalized rows. -/
def estimate_rent_v2 (conn : Option DB) (distFn : ℚ → ℚ → ℚ → ℚ → ℚ)
    (mlFn : Option (PropertyData → Option ℚ → Option ℚ))
    (lat lon : ℚ) (bedrooms : ℤ) (bathrooms : Option ℚ) (sqft : Option ℤ)
    (zip_code : Option String) (property_type : Option String)
    (year_built : Option ℤ) (radius_miles : ℚ) : RentEstimate :=
  if is_non_rentable property_type then
    { estimated_rent := 0, confidence_score := 1,
      method := "non_rentable_property_type",
      property_type := property_type,
      reason := some "Property type indicates no rentable structure" }
  else
    let hud_rent := estimate_hud_rent conn zip_code bedrooms
    let t := get_scraped_comps conn distFn lat lon
      (if bedrooms ≠ 0 then bedrooms else 3) radius_miles 15 90 hud_rent
    let ml_prediction := get_ml_prediction mlFn
      ⟨bedrooms, bathrooms, sqft, year_built, lat, lon, property_type⟩ hud_rent
    let rows := normalize_weights (source_rows hud_rent t.1 t.2.2 ml_prediction)
    if rows.isEmpty then
      { estimated_rent := 0, confidence_score := 1/10,
        method := "insufficient_data",
        comp_count := 0, comps := some [],
        reason := some "No HUD, comp, or ML data available" }
    else
      { estimated_rent := (rne ((rows.map (fun r => r.value * r.weight)).sum) : ℚ),
        confidence_score :=
          min (if 25 < calculate_variance (rows.map (fun r => r.value)) then
                 confidence_from rows t.2.2 * (4/5)
               else confidence_from rows t.2.2) 1,
        method := method_name rows,
        hud_fmr := hud_rent,
        comps_median := t.1,
        ml_prediction := ml_prediction,
        comp_count := t.2.2,
        comps := some t.2.1,
        property_type := property_type,
        variance_pct :=
          if calculate_variance (rows.map (fun r => r.value)) ≠ 0 then
            some (round1 (calculate_variance (rows.map (fun r => r.value))))
          else none,
        weights_used := some (rows.map (fun r => (r.tag, r.weight))) }

/-! ## ML prediction rounding (`ml_rent_estimator/predict.py`, lines 49-123)

Only the slice of `predict_rent` the rounding claim concerns is embedded:
feature extraction (`extract_features` / `add_market_features`) produces a
name-to-value mapping that is taken here as an input, the trained model is
an optional function on the assembled feature vector, and the prediction is
rounded to the nearest $25 (lines 99-107). -/

structure MLPredictResult where
  ml_estimate : Option ℤ
  error : Option String := none
  fallback : Option ℚ := none
deriving DecidableEq

/-- Lines 85-97: the feature vector lists, in order, the value of each
trained feature name, with missing features filled with 0
(`features.get(k, 0)` and `fillna(0)`). -/
def build_feature_vector (trained_features : List String)
    (features : List (String × ℚ)) : List ℚ :=
  trained_features.map (fun k => (features.lookup k).getD 0)

/-- Model of `predict_rent`, restricted to the point estimate: absent model artifact
returns the error result (lines 65-70); otherwise the raw model prediction
is rounded to the nearest $25 (`round(prediction / 25) * 25`, line 103) and
returned as an integer. -/
def predict_rent (model : Option (List ℚ → ℚ)) (trained_features : List String)
    (features : List (String × ℚ)) (hud_rent : Option ℚ) : MLPredictResult :=
  match model with
  | none =>
    { ml_estimate := none,
      error := some "Model not trained yet. Run train_model.py first.",
      fallback := hud_rent }
  | some m =>
    let prediction := m (build_feature_vector trained_features features)
    { ml_estimate := some (rne (prediction / 25) * 25) }

/-! ## Helper lemmas about the comps pipeline -/

theorem admit_candidate_some {distFn : ℚ → ℚ → ℚ → ℚ → ℚ} {lat lon : ℚ}
    {bedrooms : ℤ} {radius_miles : ℚ} {hud_rent : Option ℚ} {c : ListingRow}
    {comp : Comp}
    (h : admit_candidate distFn lat lon bedrooms radius_miles hud_rent c = some comp) :
    distFn lat lon c.latitude c.longitude ≤ radius_miles ∧
    comp.price = c.price ∧ comp.beds = c.bedrooms ∧
    comp.distance = round2 (distFn lat lon c.latitude c.longitude) ∧
    (∀ h0 : ℚ, hud_rent = some h0 → h0 ≠ 0 → ¬(c.price < h0 * (7/10))) := by
  simp only [admit_candidate] at h
  by_cases hdist : distFn lat lon c.latitude c.longitude ≤ radius_miles
  · rw [if_pos hdist] at h
    cases hud_rent with
    | none =>
      simp only [Option.some.injEq] at h
      subst h
      exact ⟨hdist, rfl, rfl, rfl, by intro h0 hh0; cases hh0⟩
    | some h0 =>
      dsimp only at h
      by_cases hkeep : h0 ≠ 0 ∧ c.price < h0 * (7/10)
      · rw [if_pos hkeep] at h
        cases h
      · rw [if_neg hkeep] at h
        simp only [Option.some.injEq] at h
        subst h
        refine ⟨hdist, rfl, rfl, rfl, ?_⟩
        intro h1 hh1 hne hlt
        cases hh1
        exact hkeep ⟨hne, hlt⟩
  · rw [if_neg hdist] at h
    cases h

theorem mem_comps_sound {conn : Option DB} {distFn : ℚ → ℚ → ℚ → ℚ → ℚ}
    {lat lon : ℚ} {bedrooms : ℤ} {radius_miles : ℚ} {max_comps : ℕ}
    {lookback_days : ℤ} {hud_rent : Option ℚ} {comp : Comp}
    (hc : comp ∈ (get_scraped_comps conn distFn lat lon bedrooms radius_miles
      max_comps lookback_days hud_rent).2.1) :
    ∃ db c, conn = some db ∧ c ∈ db.rental_listings ∧
      sql_candidate_filter bedrooms lookback_days db.now c = true ∧
      admit_candidate distFn lat lon bedrooms radius_miles hud_rent c = some comp := by
  cases conn with
  | none => simp [get_scraped_comps] at hc
  | some db =>
    unfold get_scraped_comps at hc
    by_cases hempty :
        (sortBy (fun a b => decide (b.score ≤ a.score))
          ((db.rental_listings.filter
            (sql_candidate_filter bedrooms lookback_days db.now)).filterMap
            (admit_candidate distFn lat lon bedrooms radius_miles hud_rent))).take
          max_comps |>.isEmpty
    · simp only [hempty, if_true] at hc
      simp at hc
    · simp only [hempty, if_false] at hc
      have h1 : comp ∈ sortBy (fun a b => decide (b.score ≤ a.score))
          ((db.rental_listings.filter
            (sql_candidate_filter bedrooms lookback_days db.now)).filterMap
            (admit_candidate distFn lat lon bedrooms radius_miles hud_rent)) :=
        List.take_subset _ _ hc
      have h2 := mem_sortBy.1 h1
      obtain ⟨c, hcmem, hadmit⟩ := List.mem_filterMap.1 h2
      obtain ⟨hmem, hfilt⟩ := List.mem_filter.1 hcmem
      exact ⟨db, c, rfl, hmem, hfilt, hadmit⟩

theorem comps_price_pos {conn : Option DB} {distFn : ℚ → ℚ → ℚ → ℚ → ℚ}
    {lat lon : ℚ} {bedrooms : ℤ} {radius_miles : ℚ} {max_comps : ℕ}
    {lookback_days : ℤ} {hud_rent : Option ℚ} {comp : Comp}
    (hc : comp ∈ (get_scraped_comps conn distFn lat lon bedrooms radius_miles
      max_comps lookback_days hud_rent).2.1) :
    0 < comp.price := by
  obtain ⟨db, c, _, _, hsql, hadmit⟩ := mem_comps_sound hc
  obtain ⟨_, hprice, _, _, _⟩ := admit_candidate_some hadmit
  simp only [sql_candidate_filter, Bool.and_eq_true, decide_eq_true_eq] at hsql
  rw [hprice]
  exact hsql.1.1.1.1

/-! ## Helper lemmas about weights and the variance fold -/

theorem sum_map_div (l : List ℚ) (c : ℚ) : (l.map (· / c)).sum = l.sum / c := by
  induction l with
  | nil => simp
  | cons x xs ih => simp [ih, add_div]

theorem source_rows_weight_pos {h c : Option ℚ} {n : ℕ} {m : Option ℚ} :
    ∀ r ∈ source_rows h c n m, 0 < r.weight := by
  intro r hr
  unfold source_rows at hr
  rcases List.mem_append.1 hr with hr12 | hr3
  · rcases List.mem_append.1 hr12 with hr1 | hr2
    · cases h with
      | none => simp at hr1
      | some v =>
        dsimp only at hr1
        split at hr1
        · simp only [List.mem_singleton] at hr1
          subst hr1
          norm_num
        · simp at hr1
    · cases c with
      | none => simp at hr2
      | some v =>
        dsimp only at hr2
        split at hr2
        · simp only [List.mem_singleton] at hr2
          subst hr2
          norm_num
        · split at hr2
          · simp only [List.mem_singleton] at hr2
            subst hr2
            norm_num
          · simp at hr2
  · cases m with
    | none => simp at hr3
    | some v =>
      dsimp only at hr3
      split at hr3
      · simp only [List.mem_singleton] at hr3
        subst hr3
        norm_num
      · simp at hr3

theorem normalize_weights_eq_nil_iff (rows : List SourceRow) :
    normalize_weights rows = [] ↔ rows = [] := by
  unfold normalize_weights
  split
  · simp
  · simp

theorem normalize_weights_sum_eq_one (rows : List SourceRow) (hne : rows ≠ [])
    (hpos : ∀ r ∈ rows, 0 < r.weight) :
    ((normalize_weights rows).map (fun r => r.weight)).sum = 1 := by
  have htpos : 0 < (rows.map (fun r => r.weight)).sum := by
    apply List.sum_pos
    · intro x hx
      obtain ⟨r, hr, hrx⟩ := List.mem_map.1 hx
      rw [← hrx]
      exact hpos r hr
    · intro hmap
      exact hne (List.map_eq_nil_iff.1 hmap)
  unfold normalize_weights
  split
  · next hcond =>
    rw [List.map_map]
    have : ((fun r : SourceRow => r.weight) ∘ fun r : SourceRow =>
        { r with weight := r.weight / (rows.map (fun r => r.weight)).sum }) =
        fun r : SourceRow => r.weight / (rows.map (fun r => r.weight)).sum := rfl
    rw [this]
    have hmm : rows.map (fun r : SourceRow => r.weight / (rows.map (fun r => r.weight)).sum) =
        (rows.map (fun r => r.weight)).map (· / (rows.map (fun r => r.weight)).sum) := by
      rw [List.map_map]
      rfl
    rw [hmm, sum_map_div]
    exact div_self htpos.ne'
  · next hcond =>
    push_neg at hcond
    exact hcond htpos

theorem foldr_max_mem_of_nonneg :
    ∀ (l : List ℚ), l ≠ [] → (∀ x ∈ l, 0 ≤ x) → l.foldr max 0 ∈ l := by
  intro l
  induction l with
  | nil => intro h; exact absurd rfl h
  | cons x xs ih =>
    intro _ hnn
    cases xs with
    | nil =>
      rw [List.foldr_cons, List.foldr_nil, max_eq_left (hnn x (by simp))]
      simp
    | cons y ys =>
      have hmem := ih (by simp) (fun z hz => hnn z (List.mem_cons_of_mem x hz))
      rw [List.foldr_cons]
      rcases max_choice x ((y :: ys).foldr max 0) with hc | hc
      · rw [hc]; simp
      · rw [hc]
        exact List.mem_cons_of_mem x hmem

theorem foldr_max_is_ub (l : List ℚ) : ∀ x ∈ l, x ≤ l.foldr max 0 := by
  induction l with
  | nil => intro x hx; cases hx
  | cons y ys ih =>
    intro x hx
    rcases List.mem_cons.1 hx with h | h
    · subst h; exact le_max_left _ _
    · exact le_trans (ih x h) (le_max_right _ _)

theorem method_name_mem (rows : List SourceRow) :
    method_name rows ∈ ["triangulated_hud_comps_ml", "triangulated_hud_comps",
      "triangulated_hud_ml", "triangulated_comps_ml", "hud", "comps", "ml",
      "unknown"] := by
  unfold method_name
  cases h1 : rows.any (fun r => r.tag = "hud") <;>
    cases h2 : rows.any (fun r => r.tag = "comps") <;>
      cases h3 : rows.any (fun r => r.tag = "ml") <;>
        simp <;> decide

theorem method_name_ne_insufficient (rows : List SourceRow) :
    method_name rows ≠ "insufficient_data" := by
  have h := method_name_mem rows
  intro hcontra
  rw [hcontra] at h
  simp at h

/-- Structure of a `get_scraped_comps` result: either the absent triple
`(none, [], 0)`, or a positive median together with a nonempty comp list
whose length is the reported count. -/
theorem get_scraped_comps_shape (conn : Option DB) (distFn : ℚ → ℚ → ℚ → ℚ → ℚ)
    (lat lon : ℚ) (bedrooms : ℤ) (radius_miles : ℚ) (max_comps : ℕ)
    (lookback_days : ℤ) (hud_rent : Option ℚ) :
    get_scraped_comps conn distFn lat lon bedrooms radius_miles max_comps
        lookback_days hud_rent = (none, [], 0) ∨
    (∃ m, (get_scraped_comps conn distFn lat lon bedrooms radius_miles max_comps
        lookback_days hud_rent).1 = some m ∧ 0 < m ∧
      (get_scraped_comps conn distFn lat lon bedrooms radius_miles max_comps
        lookback_days hud_rent).2.1 ≠ [] ∧
      (get_scraped_comps conn distFn lat lon bedrooms radius_miles max_comps
        lookback_days hud_rent).2.2 =
      (get_scraped_comps conn distFn lat lon bedrooms radius_miles max_comps
        lookback_days hud_rent).2.1.length) := by
  cases conn with
  | none => left; rfl
  | some db =>
    by_cases hempty :
        ((sortBy (fun a b => decide (b.score ≤ a.score))
          ((db.rental_listings.filter
            (sql_candidate_filter bedrooms lookback_days db.now)).filterMap
            (admit_candidate distFn lat lon bedrooms radius_miles hud_rent))).take
          max_comps).isEmpty
    · left
      simp only [get_scraped_comps, hempty, if_true]
    · right
      have hres : get_scraped_comps (some db) distFn lat lon bedrooms radius_miles
          max_comps lookback_days hud_rent =
          (let top := (sortBy (fun a b => decide (b.score ≤ a.score))
            ((db.rental_listings.filter
              (sql_candidate_filter bedrooms lookback_days db.now)).filterMap
              (admit_candidate distFn lat lon bedrooms radius_miles hud_rent))).take
            max_comps
          let prices := sortBy (fun a b => decide (a ≤ b)) (top.map (fun x => x.price))
          (prices.get? (prices.length / 2), top, top.length)) := by
        simp only [get_scraped_comps, hempty, if_false]
      set top := (sortBy (fun a b => decide (b.score ≤ a.score))
        ((db.rental_listings.filter
          (sql_candidate_filter bedrooms lookback_days db.now)).filterMap
          (admit_candidate distFn lat lon bedrooms radius_miles hud_rent))).take
        max_comps with htop
      set prices := sortBy (fun a b => decide (a ≤ b)) (top.map (fun x => x.price))
        with hprices
      have htopne : top ≠ [] := by
        intro hnil
        rw [hnil] at hempty
        exact hempty rfl
      have hlen : prices.length = top.length := by
        rw [hprices, length_sortBy, List.length_map]
      have hlenpos : 0 < prices.length := by
        rw [hlen]
        exact List.length_pos.2 htopne
      have hidx : prices.length / 2 < prices.length := Nat.div_lt_self hlenpos (by norm_num)
      have hm : prices.get? (prices.length / 2) =
          some (prices.get ⟨prices.length / 2, hidx⟩) := List.get?_eq_get hidx
      refine ⟨prices.get ⟨prices.length / 2, hidx⟩, ?_, ?_, ?_, ?_⟩
      · rw [hres]; exact hm
      · have hmem : prices.get ⟨prices.length / 2, hidx⟩ ∈ prices := List.get?_mem hm
        have hmem2 : prices.get ⟨prices.length / 2, hidx⟩ ∈
            top.map (fun x => x.price) := mem_sortBy.1 hmem
        obtain ⟨comp, hcomp, hcm⟩ := List.mem_map.1 hmem2
        have hcmem : comp ∈ (get_scraped_comps (some db) distFn lat lon bedrooms
            radius_miles max_comps lookback_days hud_rent).2.1 := by
          rw [hres]
          exact hcomp
        rw [← hcm]
        exact comps_price_pos hcmem
      · rw [hres]; exact htopne
      · rw [hres]

/-! ## Claims -/

/-- C1: for every estimation request whose property_type is classified
non-rentable, `estimate_rent_v2` returns `estimated_rent = 0`,
`confidence_score = 1.0` and the terminal method tag
`'non_rentable_property_type'`, regardless of all other inputs; no
benchmark, comparables or ML source is consulted (the result does not
depend on `conn`, `distFn` or `mlFn`, which are universally quantified
here). -/
theorem c1_non_rentable_terminal (conn : Option DB) (distFn : ℚ → ℚ → ℚ → ℚ → ℚ)
    (mlFn : Option (PropertyData → Option ℚ → Option ℚ))
    (lat lon : ℚ) (bedrooms : ℤ) (bathrooms : Option ℚ) (sqft : Option ℤ)
    (zip_code : Option String) (property_type : Option String)
    (year_built : Option ℤ) (radius_miles : ℚ)
    (h : is_non_rentable property_type = true) :
    estimate_rent_v2 conn distFn mlFn lat lon bedrooms bathrooms sqft zip_code
      property_type year_built radius_miles =
    { estimated_rent := 0, confidence_score := 1,
      method := "non_rentable_property_type",
      property_type := property_type,
      reason := some "Property type indicates no rentable structure" } := by
  unfold estimate_rent_v2
  rw [h]
  simp

/-- Witness for C1 at the concrete input of spec Scenario B. -/
theorem c1_witness :
    is_non_rentable (some "VACANT_LAND") = true ∧
    estimate_rent_v2 (some ⟨[("44105", [("3br", 1200)])], [], 0⟩)
        (fun _ _ _ _ => 0) none 41 (-81) 3 (some 2) (some 1500) (some "44105")
        (some "VACANT_LAND") (some 1950) 2 =
    { estimated_rent := 0, confidence_score := 1,
      method := "non_rentable_property_type",
      property_type := some "VACANT_LAND",
      reason := some "Property type indicates no rentable structure" } :=
  ⟨by decide,
   c1_non_rentable_terminal (some ⟨[("44105", [("3br", 1200)])], [], 0⟩)
     (fun _ _ _ _ => 0) none 41 (-81) 3 (some 2) (some 1500) (some "44105")
     (some "VACANT_LAND") (some 1950) 2 (by decide)⟩

/-- C9: whenever a trained model artifact is available and produces a point
estimate, the returned `ml_estimate` is the raw model prediction rounded to
the nearest $25 — an integer multiple of 25 within $12.50 of the raw
prediction. -/
theorem c9_ml_rounded_to_25 (model : List ℚ → ℚ) (trained_features : List String)
    (features : List (String × ℚ)) (hud_rent : Option ℚ) :
    ∃ k : ℤ,
      (predict_rent (some model) trained_features features hud_rent).ml_estimate
        = some (25 * k) ∧
      |((25 * k : ℤ) : ℚ) - model (build_feature_vector trained_features features)|
        ≤ 25 / 2 := by
  refine ⟨rne (model (build_feature_vector trained_features features) / 25), ?_, ?_⟩
  · simp [predict_rent, mul_comm]
  · have h := abs_rne_sub (model (build_feature_vector trained_features features) / 25)
    have h2 : |(25 : ℚ)| * |((rne (model (build_feature_vector trained_features
        features) / 25) : ℤ) : ℚ) -
        model (build_feature_vector trained_features features) / 25| ≤ 25 / 2 := by
      rw [abs_of_nonneg (by norm_num : (0:ℚ) ≤ 25)]
      linarith
    calc |((25 * rne (model (build_feature_vector trained_features features) / 25) :
            ℤ) : ℚ) - model (build_feature_vector trained_features features)|
        = |(25 : ℚ) * (((rne (model (build_feature_vector trained_features features)
            / 25) : ℤ) : ℚ) - model (build_feature_vector trained_features features)
            / 25)| := by
          push_cast
          ring_nf
      _ = |(25 : ℚ)| * |((rne (model (build_feature_vector trained_features features)
            / 25) : ℤ) : ℚ) - model (build_feature_vector trained_features features)
            / 25| := abs_mul _ _
      _ ≤ 25 / 2 := h2

/-- Specification-side definition for C5, from the spec's words: the
representative rent is "the median price of the unweighted sorted list of
kept comps" — the element at position `⌊n/2⌋` of the ascending-sorted price
list (the upper median for an even count), with no similarity weighting. -/
def spec_unweighted_median (prices : List ℚ) : Option ℚ :=
  (sortBy (fun a b => decide (a ≤ b)) prices).get?
    ((sortBy (fun a b => decide (a ≤ b)) prices).length / 2)

/-- C5: for every `get_scraped_comps` result, the representative rent is the
unweighted median of the kept comps' prices (no similarity weighting); it is
absent exactly when no comps survive, in which case the list is empty and
the count 0; the count is always the length of the returned list. -/
theorem c5_unweighted_median (conn : Option DB) (distFn : ℚ → ℚ → ℚ → ℚ → ℚ)
    (lat lon : ℚ) (bedrooms : ℤ) (radius_miles : ℚ) (max_comps : ℕ)
    (lookback_days : ℤ) (hud_rent : Option ℚ) :
    (get_scraped_comps conn distFn lat lon bedrooms radius_miles max_comps
        lookback_days hud_rent).1 =
      spec_unweighted_median
        ((get_scraped_comps conn distFn lat lon bedrooms radius_miles max_comps
          lookback_days hud_rent).2.1.map (fun c => c.price)) ∧
    ((get_scraped_comps conn distFn lat lon bedrooms radius_miles max_comps
        lookback_days hud_rent).2.1 = [] ↔
      (get_scraped_comps conn distFn lat lon bedrooms radius_miles max_comps
        lookback_days hud_rent).1 = none) ∧
    (get_scraped_comps conn distFn lat lon bedrooms radius_miles max_comps
        lookback_days hud_rent).2.2 =
      (get_scraped_comps conn distFn lat lon bedrooms radius_miles max_comps
        lookback_days hud_rent).2.1.length := by
  rcases get_scraped_comps_shape conn distFn lat lon bedrooms radius_miles
    max_comps lookback_days hud_rent with hsh | ⟨m, h1, _, h3, h4⟩
  · rw [hsh]
    refine ⟨?_, by simp, rfl⟩
    simp [spec_unweighted_median, sortBy]
  · refine ⟨?_, ?_, h4⟩
    · -- in the nonempty branch both sides are the same indexed element of
      -- the same sorted price list
      cases conn with
      | none => simp [get_scraped_comps] at h3
      | some db =>
        by_cases hempty :
            ((sortBy (fun a b => decide (b.score ≤ a.score))
              ((db.rental_listings.filter
                (sql_candidate_filter bedrooms lookback_days db.now)).filterMap
                (admit_candidate distFn lat lon bedrooms radius_miles hud_rent))).take
              max_comps).isEmpty
        · simp only [get_scraped_comps, hempty, if_true] at h3
          simp at h3
        · simp only [get_scraped_comps, hempty, if_false]
          rfl
    · constructor
      · intro hnil
        exact absurd hnil h3
      · intro hnone
        rw [h1] at hnone
        cases hnone

/-- Witness for C5 at a concrete input (store unavailable: the kept list is
empty, the representative rent absent, the count 0). -/
theorem c5_witness :
    (get_scraped_comps none (fun _ _ _ _ => 0) 0 0 3 2 15 90 none).1 =
      spec_unweighted_median
        ((get_scraped_comps none (fun _ _ _ _ => 0) 0 0 3 2 15 90
          none).2.1.map (fun c => c.price)) ∧
    ((get_scraped_comps none (fun _ _ _ _ => 0) 0 0 3 2 15 90 none).2.1 = [] ↔
      (get_scraped_comps none (fun _ _ _ _ => 0) 0 0 3 2 15 90 none).1 = none) ∧
    (get_scraped_comps none (fun _ _ _ _ => 0) 0 0 3 2 15 90 none).2.2 =
      (get_scraped_comps none (fun _ _ _ _ => 0) 0 0 3 2 15 90
        none).2.1.length :=
  c5_unweighted_median none (fun _ _ _ _ => 0) 0 0 3 2 15 90 none

/-- C3: every comparable in the returned comps list was admitted by the
filters: its distance (as stored, rounded to 2 decimals like the source
does) does not exceed `radius_miles` (stated for a radius that is itself
exact at 2 decimals, as the default 2.0 is), its bedroom count is within
±1 of the query's, and whenever a benchmark rent is present its price is
at least 0.7 times that benchmark. -/
theorem c3_comp_admission (conn : Option DB) (distFn : ℚ → ℚ → ℚ → ℚ → ℚ)
    (lat lon : ℚ) (bedrooms : ℤ) (radius_miles : ℚ) (max_comps : ℕ)
    (lookback_days : ℤ) (hud_rent : Option ℚ)
    (hradius : round2 radius_miles = radius_miles) :
    ∀ comp ∈ (get_scraped_comps conn distFn lat lon bedrooms radius_miles
        max_comps lookback_days hud_rent).2.1,
      comp.distance ≤ radius_miles ∧
      bedrooms - 1 ≤ comp.beds ∧ comp.beds ≤ bedrooms + 1 ∧
      (∀ h : ℚ, hud_rent = some h → h * (7/10) ≤ comp.price) := by
  intro comp hc
  obtain ⟨db, c, _, _, hsql, hadmit⟩ := mem_comps_sound hc
  obtain ⟨hdist, hprice, hbeds, hdisteq, hscam⟩ := admit_candidate_some hadmit
  simp only [sql_candidate_filter, Bool.and_eq_true, decide_eq_true_eq] at hsql
  obtain ⟨⟨⟨⟨hp0, _⟩, hbl⟩, hbu⟩, _⟩ := hsql
  refine ⟨?_, ?_, ?_, ?_⟩
  · rw [hdisteq, ← hradius]
    exact round2_mono hdist
  · rw [hbeds]
    have : bedrooms - 1 ≤ max 0 (bedrooms - 1) := le_max_right _ _
    omega
  · rw [hbeds]; exact hbu
  · intro h hh
    rcases eq_or_ne h 0 with h0 | h0
    · subst h0
      rw [hprice]
      linarith
    · have := hscam h hh h0
      rw [hprice]
      linarith [not_lt.1 this]

/-- Witness for C3: a concrete store with one listing inside the radius and
one scam-priced listing; the kept comp satisfies all three admission
conditions. -/
theorem c3_witness :
    round2 2 = 2 ∧
    ∀ comp ∈ (get_scraped_comps
        (some ⟨[], [⟨"10 Main St", 1300, 3, some 2, some 1400, 41, -81, 100⟩,
                    ⟨"66 Scam Ave", 500, 3, some 1, some 900, 41, -81, 100⟩], 100⟩)
        (fun _ _ _ _ => 1) 41 (-81) 3 2 15 90 (some 1200)).2.1,
      comp.distance ≤ 2 ∧
      (3 : ℤ) - 1 ≤ comp.beds ∧ comp.beds ≤ 3 + 1 ∧
      (∀ h : ℚ, (some 1200 : Option ℚ) = some h → h * (7/10) ≤ comp.price) := by
  constructor
  · norm_num [round2, rne]
  · exact c3_comp_admission
      (some ⟨[], [⟨"10 Main St", 1300, 3, some 2, some 1400, 41, -81, 100⟩,
                  ⟨"66 Scam Ave", 500, 3, some 1, some 900, 41, -81, 100⟩], 100⟩)
      (fun _ _ _ _ => 1) 41 (-81) 3 2 15 90 (some 1200)
      (by norm_num [round2, rne])

/-- C7: when the store is unavailable, `get_hud_safmr` returns `none` and
`get_scraped_comps` returns `(none, [], 0)` rather than raising; the
failure result is identical to the result on a reachable store with no
matching listings (callers cannot distinguish the two); and the pipeline
continues with the remaining sources — with both store-backed sources
absent and a positive ML prediction `p`, `estimate_rent_v2` still produces
an estimate from the ML source alone. -/
theorem c7_source_failure_absent (distFn : ℚ → ℚ → ℚ → ℚ → ℚ)
    (lat lon : ℚ) (bedrooms : ℤ) (radius_miles : ℚ) (max_comps : ℕ)
    (lookback_days : ℤ) (hud_rent : Option ℚ) (zip_code : ZipInput)
    (benchRows : List (String × List (String × ℚ))) (now : ℤ)
    (bathrooms : Option ℚ) (sqft : Option ℤ) (year_built : Option ℤ)
    (property_type : Option String) (p : ℚ)
    (hpt : is_non_rentable property_type = false) (hp : 0 < p) :
    get_hud_safmr none zip_code bedrooms = none ∧
    get_scraped_comps none distFn lat lon bedrooms radius_miles max_comps
      lookback_days hud_rent = (none, [], 0) ∧
    get_scraped_comps none distFn lat lon bedrooms radius_miles max_comps
        lookback_days hud_rent =
      get_scraped_comps (some ⟨benchRows, [], now⟩) distFn lat lon bedrooms
        radius_miles max_comps lookback_days hud_rent ∧
    (estimate_rent_v2 none distFn (some (fun _ _ => some p)) lat lon bedrooms
        bathrooms sqft none property_type year_built radius_miles).method = "ml" ∧
    (estimate_rent_v2 none distFn (some (fun _ _ => some p)) lat lon bedrooms
        bathrooms sqft none property_type year_built radius_miles).estimated_rent
      = (rne p : ℚ) ∧
    (estimate_rent_v2 none distFn (some (fun _ _ => some p)) lat lon bedrooms
        bathrooms sqft none property_type year_built radius_miles).confidence_score
      = 3/20 ∧
    (estimate_rent_v2 none distFn (some (fun _ _ => some p)) lat lon bedrooms
        bathrooms sqft none property_type year_built radius_miles).weights_used
      = some [("ml", 1)] := by
  have hpipe : estimate_rent_v2 none distFn (some (fun _ _ => some p)) lat lon
      bedrooms bathrooms sqft none property_type year_built radius_miles =
      { estimated_rent := (rne (p * ((1/5) / (1/5))) : ℚ),
        confidence_score := min (3/20) 1,
        method := "ml",
        hud_fmr := none, comps_median := none, ml_prediction := some p,
        comp_count := 0, comps := some [], property_type := property_type,
        variance_pct := none,
        weights_used := some [("ml", (1/5) / (1/5))] } := by
    unfold estimate_rent_v2
    rw [hpt]
    have hne1 : ¬(("ml" : String) = "hud") := by decide
    have hne2 : ¬(("ml" : String) = "comps") := by decide
    simp only [Bool.false_eq_true, if_false, estimate_hud_rent,
      get_scraped_comps, get_ml_prediction, source_rows, normalize_weights]
    norm_num [hp.ne', hp, method_name, confidence_from, calculate_variance,
      hne1, hne2]
  refine ⟨rfl, rfl, ?_, ?_, ?_, ?_, ?_⟩
  · simp [get_scraped_comps, sortBy]
  · rw [hpipe]
  · rw [hpipe]
    norm_num
  · rw [hpipe]
    norm_num
  · rw [hpipe]
    norm_num

/-- Witness for C7: with the connection absent and an ML oracle returning
1500, the pipeline still yields the single-source ML estimate. -/
theorem c7_witness :
    (estimate_rent_v2 none (fun _ _ _ _ => 0) (some (fun _ _ => some 1500))
      0 0 3 none none none none none 2).method = "ml" ∧
    (estimate_rent_v2 none (fun _ _ _ _ => 0) (some (fun _ _ => some 1500))
      0 0 3 none none none none none 2).confidence_score = 3/20 ∧
    get_hud_safmr none (.str "44105") 3 = none ∧
    get_scraped_comps none (fun _ _ _ _ => 0) 0 0 3 2 15 90 none =
      (none, [], 0) := by
  have h := c7_source_failure_absent (fun _ _ _ _ => 0) 0 0 3 2 15 90 none
    (.str "44105") [] 0 none none none none 1500 (by decide) (by norm_num)
  exact ⟨h.2.2.2.1, h.2.2.2.2.2.1, h.1, h.2.1⟩

/-- C2 (amended): for every request that passes the property-type gate,
whenever the attached `weights_used` mapping is present it is non-empty and
its values sum to exactly 1 (each present base weight divided by their
sum); it is absent exactly when the run terminated as `insufficient_data`,
i.e. when no source had data — in that case `weights_used` is `None` (the
dataclass default), not an empty mapping. -/
theorem c2_weights_sum (conn : Option DB) (distFn : ℚ → ℚ → ℚ → ℚ → ℚ)
    (mlFn : Option (PropertyData → Option ℚ → Option ℚ))
    (lat lon : ℚ) (bedrooms : ℤ) (bathrooms : Option ℚ) (sqft : Option ℤ)
    (zip_code : Option String) (property_type : Option String)
    (year_built : Option ℤ) (radius_miles : ℚ)
    (hpt : is_non_rentable property_type = false) :
    (∀ W, (estimate_rent_v2 conn distFn mlFn lat lon bedrooms bathrooms sqft
        zip_code property_type year_built radius_miles).weights_used = some W →
      W ≠ [] ∧ (W.map (fun w => w.2)).sum = 1) ∧
    ((estimate_rent_v2 conn distFn mlFn lat lon bedrooms bathrooms sqft
        zip_code property_type year_built radius_miles).weights_used = none ↔
      (estimate_rent_v2 conn distFn mlFn lat lon bedrooms bathrooms sqft
        zip_code property_type year_built radius_miles).method
        = "insufficient_data") := by
  unfold estimate_rent_v2
  rw [hpt]
  simp only [Bool.false_eq_true, if_false]
  set rws := normalize_weights (source_rows
    (estimate_hud_rent conn zip_code bedrooms)
    (get_scraped_comps conn distFn lat lon
      (if bedrooms ≠ 0 then bedrooms else 3) radius_miles 15 90
      (estimate_hud_rent conn zip_code bedrooms)).1
    (get_scraped_comps conn distFn lat lon
      (if bedrooms ≠ 0 then bedrooms else 3) radius_miles 15 90
      (estimate_hud_rent conn zip_code bedrooms)).2.2
    (get_ml_prediction mlFn
      ⟨bedrooms, bathrooms, sqft, year_built, lat, lon, property_type⟩
      (estimate_hud_rent conn zip_code bedrooms))) with hrws
  by_cases hrows : rws.isEmpty
  · simp [hrows]
  · simp only [hrows, Bool.false_eq_true, if_false]
    have hne : rws ≠ [] := by
      intro hnil
      rw [hnil] at hrows
      exact hrows rfl
    have hne0 : source_rows
        (estimate_hud_rent conn zip_code bedrooms)
        (get_scraped_comps conn distFn lat lon
          (if bedrooms ≠ 0 then bedrooms else 3) radius_miles 15 90
          (estimate_hud_rent conn zip_code bedrooms)).1
        (get_scraped_comps conn distFn lat lon
          (if bedrooms ≠ 0 then bedrooms else 3) radius_miles 15 90
          (estimate_hud_rent conn zip_code bedrooms)).2.2
        (get_ml_prediction mlFn
          ⟨bedrooms, bathrooms, sqft, year_built, lat, lon, property_type⟩
          (estimate_hud_rent conn zip_code bedrooms)) ≠ [] := by
      intro hnil
      apply hne
      rw [hrws, hnil]
      exact (normalize_weights_eq_nil_iff []).2 rfl
    refine ⟨?_, ?_⟩
    · intro W hW
      have hW2 := Option.some.inj hW
      subst hW2
      refine ⟨?_, ?_⟩
      · intro hnil
        exact hne (List.map_eq_nil_iff.1 hnil)
      · rw [List.map_map]
        have hcomp : ((fun w : String × ℚ => w.2) ∘
            (fun r : SourceRow => (r.tag, r.weight))) =
            fun r : SourceRow => r.weight := rfl
        rw [hcomp, hrws]
        exact normalize_weights_sum_eq_one _ hne0 source_rows_weight_pos
    · constructor
      · intro hcontra
        simp at hcontra
      · intro hcontra
        exact absurd hcontra (method_name_ne_insufficient _)

/-- Counterexample for C2 as stated: on a run where no source has data the
attached weights mapping is not the empty mapping — it is absent
(`weights_used = None`, the dataclass default of the insufficient-data
result). -/
theorem c2_counterexample :
    (estimate_rent_v2 none (fun _ _ _ _ => 0) none 0 0 3 none none none none
      none 2).method = "insufficient_data" ∧
    (estimate_rent_v2 none (fun _ _ _ _ => 0) none 0 0 3 none none none none
      none 2).weights_used = none ∧
    (estimate_rent_v2 none (fun _ _ _ _ => 0) none 0 0 3 none none none none
      none 2).weights_used ≠ some [] := by
  have h : estimate_rent_v2 none (fun _ _ _ _ => 0) none 0 0 3 none none none
      none none 2 =
      { estimated_rent := 0, confidence_score := 1/10,
        method := "insufficient_data",
        comp_count := 0, comps := some [],
        reason := some "No HUD, comp, or ML data available" } := by
    unfold estimate_rent_v2
    simp [is_non_rentable, estimate_hud_rent, get_scraped_comps,
      get_ml_prediction, source_rows, normalize_weights]
  rw [h]
  refine ⟨rfl, rfl, ?_⟩
  intro hcontra
  simp at hcontra

/-- Witness for C2 at a concrete input with a benchmark entry present. -/
theorem c2_witness :
    (∀ W, (estimate_rent_v2 (some ⟨[("44105", [("3br", 1200)])], [], 0⟩)
        (fun _ _ _ _ => 0) none 0 0 3 none none (some "44105") none none
        2).weights_used = some W →
      W ≠ [] ∧ (W.map (fun w => w.2)).sum = 1) ∧
    ((estimate_rent_v2 (some ⟨[("44105", [("3br", 1200)])], [], 0⟩)
        (fun _ _ _ _ => 0) none 0 0 3 none none (some "44105") none none
        2).weights_used = none ↔
      (estimate_rent_v2 (some ⟨[("44105", [("3br", 1200)])], [], 0⟩)
        (fun _ _ _ _ => 0) none 0 0 3 none none (some "44105") none none
        2).method = "insufficient_data") :=
  c2_weights_sum (some ⟨[("44105", [("3br", 1200)])], [], 0⟩)
    (fun _ _ _ _ => 0) none 0 0 3 none none (some "44105") none none 2
    (by decide)

theorem source_rows_comps_ne_nil {hud ml : Option ℚ} {m : ℚ} {cnt : ℕ}
    (hm : m ≠ 0) (hc : 1 ≤ cnt) : source_rows hud (some m) cnt ml ≠ [] := by
  unfold source_rows
  intro hnil
  have hB := (List.append_eq_nil.mp (List.append_eq_nil.mp hnil).1).2
  dsimp only at hB
  by_cases h3 : m ≠ 0 ∧ 3 ≤ cnt
  · rw [if_pos h3] at hB
    simp at hB
  · rw [if_neg h3, if_pos ⟨hm, hc⟩] at hB
    simp at hB

/-- C10: for a request with `bedrooms = 0` (and a property type that passes
the gate), the benchmark lookup is skipped entirely — the result does not
depend on the zip code, and `hud_fmr` is absent even when the table has a
`0br` entry — while the comparable search runs as if the query had 3
bedrooms (`bedrooms or 3`): the returned comps and count are those of
`get_scraped_comps` at 3 bedrooms with no benchmark threshold. -/
theorem c10_zero_bedrooms (conn : Option DB) (distFn : ℚ → ℚ → ℚ → ℚ → ℚ)
    (mlFn : Option (PropertyData → Option ℚ → Option ℚ))
    (lat lon : ℚ) (bathrooms : Option ℚ) (sqft : Option ℤ) (z : String)
    (property_type : Option String) (year_built : Option ℤ) (radius_miles : ℚ)
    (hpt : is_non_rentable property_type = false) :
    estimate_rent_v2 conn distFn mlFn lat lon 0 bathrooms sqft (some z)
        property_type year_built radius_miles =
      estimate_rent_v2 conn distFn mlFn lat lon 0 bathrooms sqft none
        property_type year_built radius_miles ∧
    (estimate_rent_v2 conn distFn mlFn lat lon 0 bathrooms sqft (some z)
        property_type year_built radius_miles).hud_fmr = none ∧
    (estimate_rent_v2 conn distFn mlFn lat lon 0 bathrooms sqft (some z)
        property_type year_built radius_miles).comps =
      some (get_scraped_comps conn distFn lat lon 3 radius_miles 15 90
        none).2.1 ∧
    (estimate_rent_v2 conn distFn mlFn lat lon 0 bathrooms sqft (some z)
        property_type year_built radius_miles).comp_count =
      (get_scraped_comps conn distFn lat lon 3 radius_miles 15 90 none).2.2 := by
  have hhud : estimate_hud_rent conn (some z) 0 = none := by
    unfold estimate_hud_rent
    simp
  have hhud2 : estimate_hud_rent conn none 0 = none := rfl
  have hcall : estimate_rent_v2 conn distFn mlFn lat lon 0 bathrooms sqft
      (some z) property_type year_built radius_miles =
      estimate_rent_v2 conn distFn mlFn lat lon 0 bathrooms sqft none
        property_type year_built radius_miles := by
    unfold estimate_rent_v2
    rw [hpt]
    simp only [Bool.false_eq_true, if_false, hhud, hhud2]
  refine ⟨hcall, ?_⟩
  unfold estimate_rent_v2
  rw [hpt]
  simp only [Bool.false_eq_true, if_false, hhud, ne_eq, not_true_eq_false,
    if_false]
  set rws := normalize_weights (source_rows none
    (get_scraped_comps conn distFn lat lon 3 radius_miles 15 90 none).1
    (get_scraped_comps conn distFn lat lon 3 radius_miles 15 90 none).2.2
    (get_ml_prediction mlFn
      ⟨0, bathrooms, sqft, year_built, lat, lon, property_type⟩ none)) with hrws
  by_cases hrows : rws.isEmpty
  · simp only [hrows, if_true]
    rcases get_scraped_comps_shape conn distFn lat lon 3 radius_miles 15 90
      none with hsh | ⟨m, h1, hmpos, h3, h4⟩
    · rw [hsh]
      simp
    · exfalso
      have hcnt : 1 ≤ (get_scraped_comps conn distFn lat lon 3 radius_miles
          15 90 none).2.2 := by
        rw [h4]
        exact List.length_pos.2 h3
      have hr0 : source_rows none
          (get_scraped_comps conn distFn lat lon 3 radius_miles 15 90 none).1
          (get_scraped_comps conn distFn lat lon 3 radius_miles 15 90 none).2.2
          (get_ml_prediction mlFn
            ⟨0, bathrooms, sqft, year_built, lat, lon, property_type⟩ none)
          ≠ [] := by
        rw [h1]
        exact source_rows_comps_ne_nil hmpos.ne' hcnt
      have : rws ≠ [] := by
        intro hnil
        apply hr0
        exact (normalize_weights_eq_nil_iff _).1 (hrws ▸ hnil)
      rw [List.isEmpty_iff] at hrows
      exact this hrows
  · simp only [hrows, Bool.false_eq_true, if_false]
    simp

/-- Witness for C10: the benchmark table has a `0br` entry for the zip, yet
a `bedrooms = 0` request ignores it entirely. -/
theorem c10_witness :
    estimate_rent_v2 (some ⟨[("44105", [("0br", 900)])], [], 0⟩)
        (fun _ _ _ _ => 0) none 0 0 0 none none (some "44105") none none 2 =
      estimate_rent_v2 (some ⟨[("44105", [("0br", 900)])], [], 0⟩)
        (fun _ _ _ _ => 0) none 0 0 0 none none none none none 2 ∧
    (estimate_rent_v2 (some ⟨[("44105", [("0br", 900)])], [], 0⟩)
        (fun _ _ _ _ => 0) none 0 0 0 none none (some "44105") none none
        2).hud_fmr = none ∧
    (estimate_rent_v2 (some ⟨[("44105", [("0br", 900)])], [], 0⟩)
        (fun _ _ _ _ => 0) none 0 0 0 none none (some "44105") none none
        2).comps =
      some (get_scraped_comps (some ⟨[("44105", [("0br", 900)])], [], 0⟩)
        (fun _ _ _ _ => 0) 0 0 3 2 15 90 none).2.1 ∧
    (estimate_rent_v2 (some ⟨[("44105", [("0br", 900)])], [], 0⟩)
        (fun _ _ _ _ => 0) none 0 0 0 none none (some "44105") none none
        2).comp_count =
      (get_scraped_comps (some ⟨[("44105", [("0br", 900)])], [], 0⟩)
        (fun _ _ _ _ => 0) 0 0 3 2 15 90 none).2.2 :=
  c10_zero_bedrooms (some ⟨[("44105", [("0br", 900)])], [], 0⟩)
    (fun _ _ _ _ => 0) none 0 0 none none "44105" none none 2 (by decide)

/-- Claim-side zip normalization for C8, following the claim's words:
"normalizes it to a 5-digit string — stripping trailing decimal artifacts
and ZIP+4 suffixes": drop a trailing `.…` decimal artifact, drop a `-…`
ZIP+4 suffix, strip whitespace. -/
def claimed_zip_normalize (s : String) : String :=
  pyStrip ⟨(beforeDot s).data.takeWhile (fun c => c ≠ '-')⟩

/-- Counterexample for C8 as stated: `get_hud_safmr` does not strip ZIP+4
suffixes (the cleaning is `split('.')[0].strip()` only, and nothing forces
the result to 5 digits).  For the input `"44105-1234"` the cleaned key
keeps the suffix, so the lookup misses a table that does carry an entry for
the 5-digit zip `"44105"` — where the claimed normalization would have
found it. -/
theorem c8_counterexample :
    cleanZip (.str "44105-1234") = "44105-1234" ∧
    claimed_zip_normalize "44105-1234" = "44105" ∧
    get_hud_safmr (some ⟨[("44105", [("3br", 1200)])], [], 0⟩)
      (.str "44105-1234") 3 = none ∧
    get_hud_safmr (some ⟨[("44105", [("3br", 1200)])], [], 0⟩)
      (.str "44105") 3 = some 1200 ∧
    cleanZip (.str "123456789.0") = "123456789" := by
  refine ⟨by decide, by decide, by decide, by decide, by decide⟩

/-- C8 (amended): `get_hud_safmr` cleans the zip before the lookup —
float inputs via `str(int(…))`, other inputs by taking the part before the
first `'.'` and stripping surrounding whitespace — so trailing decimal
artifacts and whitespace are removed, but ZIP+4 suffixes are kept and the
result is not forced to 5 digits; it returns absent (never raising) when
the cleaned key has no table entry, for any input. -/
theorem c8_zip_normalization (db : DB) (bedrooms : ℤ) (z : ZipInput)
    (hmiss : db.market_benchmarks.lookup (cleanZip z) = none) :
    get_hud_safmr (some db) z bedrooms = none ∧
    get_hud_safmr none z bedrooms = none ∧
    (∀ q : ℚ, cleanZip (.float q) = toString (pyTrunc q)) ∧
    (∀ s : String, cleanZip (.str s) = pyStrip (beforeDot s)) ∧
    cleanZip (.str " 44105.0 ") = "44105" ∧
    cleanZip (.float 44105) = "44105" ∧
    cleanZip (.str "44105-1234") = "44105-1234" ∧
    get_hud_safmr (some ⟨[("44105", [("3br", 1200)])], [], 0⟩)
      (.str "44105.0") 3 = some 1200 := by
  refine ⟨?_, rfl, fun q => rfl, fun s => rfl, by decide, by decide,
    by decide, by decide⟩
  unfold get_hud_safmr
  dsimp only
  rw [hmiss]

/-- Witness for C8 at a concrete missing entry. -/
theorem c8_witness :
    get_hud_safmr (some ⟨[("44105", [("3br", 1200)])], [], 0⟩)
      (.str "99999") 3 = none ∧
    get_hud_safmr none (.str "99999") 3 = none := by
  have h := c8_zip_normalization ⟨[("44105", [("3br", 1200)])], [], 0⟩ 3
    (.str "99999") (by decide)
  exact ⟨h.1, h.2.1⟩

/-- C4 (spec Scenario A): with hud = 1200 present, a comps representative
value of 1250 from exactly 5 kept comps, and ml absent, `estimate_rent_v2`
normalizes the weights to hud = 3/8 and comps = 5/8, estimates
`round(1200·0.375 + 1250·0.625) = 1231`, reaches confidence
`0.25 + min(0.5, 5/5·0.5) = 0.75` with no variance penalty
(variance ≈ 2.0% ≤ 25, reported as 2.0), and labels the method
`'triangulated_hud_comps'`. -/
theorem c4_scenario_a (conn : Option DB) (distFn : ℚ → ℚ → ℚ → ℚ → ℚ)
    (mlFn : Option (PropertyData → Option ℚ → Option ℚ))
    (lat lon : ℚ) (bedrooms : ℤ) (bathrooms : Option ℚ) (sqft : Option ℤ)
    (z : String) (property_type : Option String) (year_built : Option ℤ)
    (L : List Comp)
    (hpt : is_non_rentable property_type = false)
    (hz : z ≠ "") (hb : bedrooms ≠ 0)
    (hhud : get_hud_safmr conn (.str z) bedrooms = some 1200)
    (hcomps : get_scraped_comps conn distFn lat lon bedrooms 2 15 90
      (some 1200) = (some 1250, L, 5))
    (hml : get_ml_prediction mlFn
      ⟨bedrooms, bathrooms, sqft, year_built, lat, lon, property_type⟩
      (some 1200) = none) :
    estimate_rent_v2 conn distFn mlFn lat lon bedrooms bathrooms sqft (some z)
      property_type year_built 2 =
    { estimated_rent := 1231, confidence_score := 3/4,
      method := "triangulated_hud_comps",
      hud_fmr := some 1200, comps_median := some 1250, ml_prediction := none,
      comp_count := 5, comps := some L, property_type := property_type,
      reason := none, variance_pct := some 2,
      weights_used := some [("hud", 3/8), ("comps", 5/8)] } := by
  have hhud2 : estimate_hud_rent conn (some z) bedrooms = some 1200 := by
    unfold estimate_hud_rent
    dsimp only
    rw [if_pos ⟨hz, hb⟩, hhud]
  have hrows : normalize_weights (source_rows (some 1200) (some 1250) 5 none) =
      [⟨"hud", 3/8, 1200⟩, ⟨"comps", 5/8, 1250⟩] := by
    norm_num [source_rows, normalize_weights]
  have e1 : ¬(("comps" : String) = "hud") := by decide
  have e2 : ¬(("hud" : String) = "comps") := by decide
  have e3 : ¬(("hud" : String) = "ml") := by decide
  have e4 : ¬(("comps" : String) = "ml") := by decide
  have hconf : confidence_from [⟨"hud", 3/8, 1200⟩, ⟨"comps", 5/8, 1250⟩] 5
      = 3/4 := by
    norm_num [confidence_from, e1, e2, e3, e4]
  have hvar : calculate_variance [(1200 : ℚ), 1250] = 100/49 := by
    norm_num [calculate_variance, max_def]
  have hmethod : method_name [⟨"hud", 3/8, 1200⟩, ⟨"comps", 5/8, 1250⟩]
      = "triangulated_hud_comps" := by decide
  unfold estimate_rent_v2
  rw [hpt]
  simp only [Bool.false_eq_true, if_false, hhud2, if_pos hb]
  rw [hcomps, hml]
  dsimp only
  rw [hrows]
  dsimp only [List.map_cons, List.map_nil]
  rw [hvar, hconf, hmethod]
  norm_num [round1, rne]

/-- Witness for C4: a concrete store realising Scenario A — benchmark 1200
for `44105/3br`, five comps priced 1300, 1250, 1200, 1400, 1100 at the
query point (median 1250), no ML model. -/
theorem c4_witness :
    (estimate_rent_v2
      (some ⟨[("44105", [("3br", 1200)])],
        [⟨"A1", 1300, 3, none, none, 41, -81, 100⟩,
         ⟨"A2", 1250, 3, none, none, 41, -81, 100⟩,
         ⟨"A3", 1200, 3, none, none, 41, -81, 100⟩,
         ⟨"A4", 1400, 3, none, none, 41, -81, 100⟩,
         ⟨"A5", 1100, 3, none, none, 41, -81, 100⟩], 100⟩)
      (fun _ _ _ _ => 0) none 41 (-81) 3 none none (some "44105") none none
      2).estimated_rent = 1231 ∧
    (estimate_rent_v2
      (some ⟨[("44105", [("3br", 1200)])],
        [⟨"A1", 1300, 3, none, none, 41, -81, 100⟩,
         ⟨"A2", 1250, 3, none, none, 41, -81, 100⟩,
         ⟨"A3", 1200, 3, none, none, 41, -81, 100⟩,
         ⟨"A4", 1400, 3, none, none, 41, -81, 100⟩,
         ⟨"A5", 1100, 3, none, none, 41, -81, 100⟩], 100⟩)
      (fun _ _ _ _ => 0) none 41 (-81) 3 none none (some "44105") none none
      2).confidence_score = 3/4 ∧
    (estimate_rent_v2
      (some ⟨[("44105", [("3br", 1200)])],
        [⟨"A1", 1300, 3, none, none, 41, -81, 100⟩,
         ⟨"A2", 1250, 3, none, none, 41, -81, 100⟩,
         ⟨"A3", 1200, 3, none, none, 41, -81, 100⟩,
         ⟨"A4", 1400, 3, none, none, 41, -81, 100⟩,
         ⟨"A5", 1100, 3, none, none, 41, -81, 100⟩], 100⟩)
      (fun _ _ _ _ => 0) none 41 (-81) 3 none none (some "44105") none none
      2).method = "triangulated_hud_comps" ∧
    (estimate_rent_v2
      (some ⟨[("44105", [("3br", 1200)])],
        [⟨"A1", 1300, 3, none, none, 41, -81, 100⟩,
         ⟨"A2", 1250, 3, none, none, 41, -81, 100⟩,
         ⟨"A3", 1200, 3, none, none, 41, -81, 100⟩,
         ⟨"A4", 1400, 3, none, none, 41, -81, 100⟩,
         ⟨"A5", 1100, 3, none, none, 41, -81, 100⟩], 100⟩)
      (fun _ _ _ _ => 0) none 41 (-81) 3 none none (some "44105") none none
      2).weights_used = some [("hud", 3/8), ("comps", 5/8)] := by
  have hcomps : get_scraped_comps
      (some ⟨[("44105", [("3br", 1200)])],
        [⟨"A1", 1300, 3, none, none, 41, -81, 100⟩,
         ⟨"A2", 1250, 3, none, none, 41, -81, 100⟩,
         ⟨"A3", 1200, 3, none, none, 41, -81, 100⟩,
         ⟨"A4", 1400, 3, none, none, 41, -81, 100⟩,
         ⟨"A5", 1100, 3, none, none, 41, -81, 100⟩], 100⟩)
      (fun _ _ _ _ => 0) 41 (-81) 3 2 15 90 (some 1200) =
      (some 1250,
       [⟨"A1", 1300, 3, none, none, 0, 5/4⟩,
        ⟨"A2", 1250, 3, none, none, 0, 5/4⟩,
        ⟨"A3", 1200, 3, none, none, 0, 5/4⟩,
        ⟨"A4", 1400, 3, none, none, 0, 5/4⟩,
        ⟨"A5", 1100, 3, none, none, 0, 5/4⟩], 5) := by
    norm_num [get_scraped_comps, sql_candidate_filter, admit_candidate,
      sortBy, insertSorted, round2, rne, List.filter, List.filterMap, max_def]
  have h := c4_scenario_a
    (some ⟨[("44105", [("3br", 1200)])],
      [⟨"A1", 1300, 3, none, none, 41, -81, 100⟩,
       ⟨"A2", 1250, 3, none, none, 41, -81, 100⟩,
       ⟨"A3", 1200, 3, none, none, 41, -81, 100⟩,
       ⟨"A4", 1400, 3, none, none, 41, -81, 100⟩,
       ⟨"A5", 1100, 3, none, none, 41, -81, 100⟩], 100⟩)
    (fun _ _ _ _ => 0) none 41 (-81) 3 none none "44105" none none
    [⟨"A1", 1300, 3, none, none, 0, 5/4⟩,
     ⟨"A2", 1250, 3, none, none, 0, 5/4⟩,
     ⟨"A3", 1200, 3, none, none, 0, 5/4⟩,
     ⟨"A4", 1400, 3, none, none, 0, 5/4⟩,
     ⟨"A5", 1100, 3, none, none, 0, 5/4⟩]
    (by decide) (by decide) (by decide) (by decide) hcomps rfl
  rw [h]
  exact ⟨rfl, rfl, rfl, rfl⟩

/-- C6: `variance_pct` is the maximum absolute deviation of the present
source values from their mean, as a percentage of the mean (0 for fewer
than two values), and a variance above 25 multiplies the confidence by 0.8.
Conjuncts: the general characterization of `calculate_variance` (the fold
result is a member of the deviation list and an upper bound of it, divided
by the mean and scaled by 100); the `< 2 values` zero case; spec Scenario E
(`hud = 1000, comps = 1000, ml = 1500` gives variance `200/7 ≈ 28.6% > 25`);
and the full pipeline at that configuration, where the reported
`variance_pct` is 28.6 and the confidence is `0.9 · 0.8 = 0.72`. -/
theorem c6_variance_penalty (conn : Option DB) (distFn : ℚ → ℚ → ℚ → ℚ → ℚ)
    (mlFn : Option (PropertyData → Option ℚ → Option ℚ))
    (lat lon : ℚ) (bedrooms : ℤ) (bathrooms : Option ℚ) (sqft : Option ℤ)
    (z : String) (property_type : Option String) (year_built : Option ℤ)
    (L : List Comp)
    (hpt : is_non_rentable property_type = false)
    (hz : z ≠ "") (hb : bedrooms ≠ 0)
    (hhud : get_hud_safmr conn (.str z) bedrooms = some 1000)
    (hcomps : get_scraped_comps conn distFn lat lon bedrooms 2 15 90
      (some 1000) = (some 1000, L, 5))
    (hml : get_ml_prediction mlFn
      ⟨bedrooms, bathrooms, sqft, year_built, lat, lon, property_type⟩
      (some 1000) = some 1500) :
    (∀ values : List ℚ, values.length < 2 → calculate_variance values = 0) ∧
    (∀ values : List ℚ, 2 ≤ values.length →
      values.sum / (values.length : ℚ) ≠ 0 →
      ∃ d ∈ values.map (fun v => |v - values.sum / (values.length : ℚ)|),
        (∀ y ∈ values.map (fun v => |v - values.sum / (values.length : ℚ)|),
          y ≤ d) ∧
        calculate_variance values = d / (values.sum / (values.length : ℚ))
          * 100) ∧
    calculate_variance [1000, 1000, 1500] = 200/7 ∧
    (25 : ℚ) < 200/7 ∧
    (estimate_rent_v2 conn distFn mlFn lat lon bedrooms bathrooms sqft
      (some z) property_type year_built 2).variance_pct = some (143/5) ∧
    (estimate_rent_v2 conn distFn mlFn lat lon bedrooms bathrooms sqft
      (some z) property_type year_built 2).confidence_score = 18/25 := by
  have hzero : ∀ values : List ℚ, values.length < 2 →
      calculate_variance values = 0 := by
    intro values hlen
    unfold calculate_variance
    rw [if_pos hlen]
  have hchar : ∀ values : List ℚ, 2 ≤ values.length →
      values.sum / (values.length : ℚ) ≠ 0 →
      ∃ d ∈ values.map (fun v => |v - values.sum / (values.length : ℚ)|),
        (∀ y ∈ values.map (fun v => |v - values.sum / (values.length : ℚ)|),
          y ≤ d) ∧
        calculate_variance values = d / (values.sum / (values.length : ℚ))
          * 100 := by
    intro values hlen hmean
    have hne : values.map (fun v => |v - values.sum / (values.length : ℚ)|)
        ≠ [] := by
      intro hnil
      have := List.map_eq_nil_iff.1 hnil
      rw [this] at hlen
      simp at hlen
    have hnn : ∀ x ∈ values.map
        (fun v => |v - values.sum / (values.length : ℚ)|), 0 ≤ x := by
      intro x hx
      obtain ⟨v, _, hvx⟩ := List.mem_map.1 hx
      rw [← hvx]
      exact abs_nonneg _
    refine ⟨_, foldr_max_mem_of_nonneg _ hne hnn, foldr_max_is_ub _, ?_⟩
    unfold calculate_variance
    rw [if_neg (by omega : ¬ values.length < 2)]
    dsimp only
    rw [if_neg hmean]
  have ha1 : |(500/3 : ℚ)| = 500/3 := abs_of_nonneg (by norm_num)
  have ha2 : |(1000/3 : ℚ)| = 1000/3 := abs_of_nonneg (by norm_num)
  have hvar : calculate_variance [(1000 : ℚ), 1000, 1500] = 200/7 := by
    norm_num [calculate_variance, max_def, ha1, ha2]
  have e1 : ¬(("comps" : String) = "hud") := by decide
  have e2 : ¬(("hud" : String) = "comps") := by decide
  have e3 : ¬(("hud" : String) = "ml") := by decide
  have e4 : ¬(("comps" : String) = "ml") := by decide
  have e5 : ¬(("ml" : String) = "hud") := by decide
  have e6 : ¬(("ml" : String) = "comps") := by decide
  have hhud2 : estimate_hud_rent conn (some z) bedrooms = some 1000 := by
    unfold estimate_hud_rent
    dsimp only
    rw [if_pos ⟨hz, hb⟩, hhud]
  have hrows : normalize_weights (source_rows (some 1000) (some 1000) 5
      (some 1500)) =
      [⟨"hud", 3/10, 1000⟩, ⟨"comps", 1/2, 1000⟩, ⟨"ml", 1/5, 1500⟩] := by
    norm_num [source_rows, normalize_weights]
  have hconf : confidence_from
      [⟨"hud", 3/10, 1000⟩, ⟨"comps", 1/2, 1000⟩, ⟨"ml", 1/5, 1500⟩] 5
      = 9/10 := by
    norm_num [confidence_from, e1, e2, e3, e4, e5, e6]
  refine ⟨hzero, hchar, hvar, by norm_num, ?_, ?_⟩ <;>
  · unfold estimate_rent_v2
    rw [hpt]
    simp only [Bool.false_eq_true, if_false, hhud2, if_pos hb]
    rw [hcomps, hml]
    dsimp only
    rw [hrows]
    dsimp only [List.map_cons, List.map_nil]
    rw [hvar, hconf]
    norm_num [round1, rne]

/-- Witness for C6: a concrete store realising Scenario E — benchmark 1000,
five comps at 1000, an ML oracle returning 1500; the variance penalty
fires. -/
theorem c6_witness :
    (estimate_rent_v2
      (some ⟨[("44105", [("3br", 1000)])],
        [⟨"B1", 1000, 3, none, none, 41, -81, 100⟩,
         ⟨"B2", 1000, 3, none, none, 41, -81, 100⟩,
         ⟨"B3", 1000, 3, none, none, 41, -81, 100⟩,
         ⟨"B4", 1000, 3, none, none, 41, -81, 100⟩,
         ⟨"B5", 1000, 3, none, none, 41, -81, 100⟩], 100⟩)
      (fun _ _ _ _ => 0) (some (fun _ _ => some 1500)) 41 (-81) 3 none none
      (some "44105") none none 2).variance_pct = some (143/5) ∧
    (estimate_rent_v2
      (some ⟨[("44105", [("3br", 1000)])],
        [⟨"B1", 1000, 3, none, none, 41, -81, 100⟩,
         ⟨"B2", 1000, 3, none, none, 41, -81, 100⟩,
         ⟨"B3", 1000, 3, none, none, 41, -81, 100⟩,
         ⟨"B4", 1000, 3, none, none, 41, -81, 100⟩,
         ⟨"B5", 1000, 3, none, none, 41, -81, 100⟩], 100⟩)
      (fun _ _ _ _ => 0) (some (fun _ _ => some 1500)) 41 (-81) 3 none none
      (some "44105") none none 2).confidence_score = 18/25 ∧
    calculate_variance [1000, 1000, 1500] = 200/7 ∧ (25 : ℚ) < 200/7 := by
  have hcomps : get_scraped_comps
      (some ⟨[("44105", [("3br", 1000)])],
        [⟨"B1", 1000, 3, none, none, 41, -81, 100⟩,
         ⟨"B2", 1000, 3, none, none, 41, -81, 100⟩,
         ⟨"B3", 1000, 3, none, none, 41, -81, 100⟩,
         ⟨"B4", 1000, 3, none, none, 41, -81, 100⟩,
         ⟨"B5", 1000, 3, none, none, 41, -81, 100⟩], 100⟩)
      (fun _ _ _ _ => 0) 41 (-81) 3 2 15 90 (some 1000) =
      (some 1000,
       [⟨"B1", 1000, 3, none, none, 0, 5/4⟩,
        ⟨"B2", 1000, 3, none, none, 0, 5/4⟩,
        ⟨"B3", 1000, 3, none, none, 0, 5/4⟩,
        ⟨"B4", 1000, 3, none, none, 0, 5/4⟩,
        ⟨"B5", 1000, 3, none, none, 0, 5/4⟩], 5) := by
    norm_num [get_scraped_comps, sql_candidate_filter, admit_candidate,
      sortBy, insertSorted, round2, rne, List.filter, List.filterMap, max_def]
  have h := c6_variance_penalty
    (some ⟨[("44105", [("3br", 1000)])],
      [⟨"B1", 1000, 3, none, none, 41, -81, 100⟩,
       ⟨"B2", 1000, 3, none, none, 41, -81, 100⟩,
       ⟨"B3", 1000, 3, none, none, 41, -81, 100⟩,
       ⟨"B4", 1000, 3, none, none, 41, -81, 100⟩,
       ⟨"B5", 1000, 3, none, none, 41, -81, 100⟩], 100⟩)
    (fun _ _ _ _ => 0) (some (fun _ _ => some 1500)) 41 (-81) 3 none none
    "44105" none none
    [⟨"B1", 1000, 3, none, none, 0, 5/4⟩,
     ⟨"B2", 1000, 3, none, none, 0, 5/4⟩,
     ⟨"B3", 1000, 3, none, none, 0, 5/4⟩,
     ⟨"B4", 1000, 3, none, none, 0, 5/4⟩,
     ⟨"B5", 1000, 3, none, none, 0, 5/4⟩]
    (by decide) (by decide) (by decide) (by decide) hcomps rfl
  exact ⟨h.2.2.2.2.1, h.2.2.2.2.2, h.2.2.1, h.2.2.2.1⟩
